import Mathlib

/-
Verification of the FTPripper directory-tree crawler (src/FTPripper.py).

Strings are embedded as lists of characters.  Python string operations map
as follows: s.endswith(t) is the list-suffix relation, "t in s" is the
list-infix relation, s[0] is List.head?, s + t is list append.  The remote
server is an oracle giving the result of pwd() and, for each directory
path, the combined result of cwd/nlst/LIST (names and raw lines), either
succeeding or failing with a permission-class or fatal error.  The shared
stop flag is a function from read index to Bool (read 0 happens before the
connection is opened, read k, for k at least 1, at the top of loop
iteration k).  The unbounded while loop is given explicit fuel; running
out of fuel yields none, so every `some` result is a faithful run.
Evaluating line[0] on an empty line raises IndexError in the source; the
classifier is therefore embedded in an exception monad whose error type
distinguishes that IndexError from FtpStringException.
-/

/-- Python strings, embedded as lists of characters. -/
abbrev Str := List Char

/-- Conversion from Lean string literals to the embedded string type. -/
def str (s : String) : Str := s.toList

/-- Python `line.endswith(name)` from get_content, line 79. -/
def endsW (line name : Str) : Bool := decide (name <:+ line)

/-- The Windows directory marker looked for inside listing lines. -/
def dirMarker : Str := str ("<DIR>")

/-- Result of classifying one matched listing line (body of the
if/elif/else at lines 80-85 of get_content). -/
inductive EntryClass where
  | dir
  | file
  | unrecognized
deriving DecidableEq, Repr

/-- The exceptions the matching loop of get_content can raise:
`indexError` is the IndexError from evaluating line[0] on an empty line
(line 80), `ftpString line` is FtpStringException(line) from the final
else (line 85).  Neither is ftplib.error_perm, so both propagate out of
process_ftp and end the host session. -/
inductive PyExn where
  | indexError
  | ftpString (line : Str)
deriving DecidableEq, Repr

/-- Lines 80-85 of get_content: `line[0]` is evaluated first, so an empty
line raises IndexError before any condition is decided; on a non-empty
line, `if line[0] == 'd' or '<DIR>' in line` gives a directory,
`elif line[0] == '-' or '<DIR>' not in line` gives a file, and the final
else yields unrecognized (which the loop turns into FtpStringException).
On a non-empty line `line[0] == c` is `line.head? = some c`. -/
def classifyLine (line : Str) : Except PyExn EntryClass :=
  if line = [] then .error .indexError
  else if line.head? = some 'd' ∨ dirMarker <:+: line then .ok .dir
  else if line.head? = some '-' ∨ ¬ (dirMarker <:+: line) then .ok .file
  else .ok .unrecognized

/-- The mutable state of the matching loop in get_content, lines 68-87:
the dirs and files accumulators and the pool of not-yet-consumed lines. -/
structure CAcc where
  dirs : List Str
  files : List Str
  pool : List Str
deriving DecidableEq, Repr

/-- One iteration of the outer `for name in names` loop of get_content
(lines 77-87): find the first not-yet-consumed line ending with the name
(the inner loop with `break`), classify it, append `path+name+'/'` to dirs
or `path+name` to files, and remove the matched line from the pool
(`lines.pop(lines.index(line))`, which removes the first occurrence equal
to the matched line).  Both exceptions — the IndexError of an empty
matched line and the FtpStringException of the final else — are raised
before the pop, so a raising iteration consumes nothing. -/
def classifyName (path : Str) (acc : CAcc) (name : Str) : Except PyExn CAcc :=
  match acc.pool.find? (fun l => endsW l name) with
  | none => .ok acc
  | some l =>
    match classifyLine l with
    | .error e => .error e
    | .ok .dir => .ok ⟨acc.dirs ++ [path ++ name ++ str ("/")], acc.files, acc.pool.erase l⟩
    | .ok .file => .ok ⟨acc.dirs, acc.files ++ [path ++ name], acc.pool.erase l⟩
    | .ok .unrecognized => .error (.ftpString l)

/-- The whole matching loop of get_content over all names, returning the
accumulated (dirs, files). -/
def classifyAll (path : Str) (names pool : List Str) : Except PyExn (List Str × List Str) :=
  match List.foldlM (classifyName path) ⟨[], [], pool⟩ names with
  | .error e => .error e
  | .ok acc => .ok (acc.dirs, acc.files)

/-- The text of a loop exception as the session-level handler of do_work
would print it: str() of an IndexError raised by line[0] is 'string index
out of range', str() of FtpStringException is built by its __str__. -/
def pyMsg : PyExn → Str
  | .indexError => str ("string index out of range")
  | .ftpString l => str ("Unsupported string format: ") ++ l

/-- One FTP target: address and port (the port is kept in its decimal
rendering, which is all the formatting code uses). -/
structure Host where
  addr : Str
  port : Str
deriving DecidableEq, Repr

/-- The two format templates chosen at lines 103-108 of process_ftp:
`rooted` appends the collected path directly after the port, `relative`
inserts a slash between the port and the path. -/
inductive Template where
  | rooted
  | relative
deriving DecidableEq, Repr

/-- Rendering of `template.format(host, port, path)` at line 126: the
fully qualified file reference. -/
def formatRef (tmpl : Template) (h : Host) (p : Str) : Str :=
  match tmpl with
  | .rooted => str ("ftp://") ++ h.addr ++ str (":") ++ h.port ++ p
  | .relative => str ("ftp://") ++ h.addr ++ str (":") ++ h.port ++ str ("/") ++ p

/-- The diagnostic string recorded at line 124 on a permission error:
`'{}:{} Path: {} Error: {}'.format(addr, port, path, e)`. -/
def permDiag (h : Host) (p e : Str) : Str :=
  h.addr ++ str (":") ++ h.port ++ str (" Path: ") ++ p ++ str (" Error: ") ++ e

/-- Errors a directory-content request can raise: `perm` is
ftplib.error_perm (caught at line 122), `fatal` is every other exception
(propagates out of process_ftp). -/
inductive GErr where
  | perm (msg : Str)
  | fatal (msg : Str)
deriving DecidableEq, Repr

/-- The remote FTP server, as the walker observes it: the outcome of
connect+login, the result of pwd(), and for each path the combined
outcome of cwd(path) / nlst() / retrlines('LIST') — raw names (possibly
with '.' and '..') and raw listing lines. -/
structure Server where
  session : Except Str Unit
  pwd : Str
  content : Str → Except GErr (List Str × List Str)

/-- get_content (lines 67-88): fetch names and lines for the path, drop
'.' and '..', run the matching loop; an exception raised by the loop
(IndexError or FtpStringException, neither of which is error_perm)
surfaces as a fatal, uncaught error carrying its printed message. -/
def get_content (srv : Server) (path : Str) : Except GErr (List Str × List Str) :=
  match srv.content path with
  | .error e => .error e
  | .ok (ns, ls) =>
    match classifyAll path (ns.filter (fun n => !(n == str (".") || n == str ("..")))) ls with
    | .error e => .error (.fatal (pyMsg e))
    | .ok r => .ok r

/-- Lines 103-108 of process_ftp: the initial frontier and the template,
chosen by comparing the result of pwd() with '/'. -/
def startConfig (pwdRes : Str) : List Str × Template :=
  if pwdRes ≠ str ("/") then ([[]], .relative) else ([str ("/")], .rooted)

/-- The `while dirs:` loop of process_ftp, lines 112-128.  `k` is the
index of the next read of the stop flag; `fuel` bounds the number of
iterations (none = fuel ran out).  A `some (.ok _)` result is the pair
(files, errors) returned at line 131; a `some (.error _)` result is an
uncaught (non-permission) exception propagating out of the loop. -/
def walkLoop (srv : Server) (h : Host) (tmpl : Template) (stop : Nat → Bool) :
    Nat → Nat → List Str → List Str → List Str →
    Option (Except Str (List Str × List Str))
  | 0, _, _, _, _ => none
  | fuel + 1, k, dirs, files, errors =>
    match dirs with
    | [] => some (.ok (files, errors))
    | path :: rest =>
      if stop k = true then some (.ok (files, errors ++ [str ("Stoped")]))
      else
        match get_content srv path with
        | .error (.perm e) =>
          walkLoop srv h tmpl stop fuel (k + 1) rest files (errors ++ [permDiag h path e])
        | .error (.fatal e) => some (.error e)
        | .ok (newDirs, newFiles) =>
          walkLoop srv h tmpl stop fuel (k + 1) (newDirs ++ rest)
            (files ++ newFiles.map (formatRef tmpl h)) errors

/-- process_ftp (lines 96-131): the pre-connect stop check at lines 97-98
(flag read 0), then connect/login, then the start-convention choice from
pwd(), then the traversal loop (flag reads from 1 on). -/
def process_ftp (srv : Server) (h : Host) (stop : Nat → Bool) (fuel : Nat) :
    Option (Except Str (List Str × List Str)) :=
  if stop 0 = true then some (.ok ([], [str ("Stoped")]))
  else
    match srv.session with
    | .error e => some (.error e)
    | .ok _ =>
      let sc := startConfig srv.pwd
      walkLoop srv h sc.2 stop fuel 1 sc.1 [] []

/-- The prefix every well-formed file reference must start with. -/
def refHead (h : Host) : Str :=
  str ("ftp://") ++ h.addr ++ str (":") ++ h.port ++ str ("/")

/-- The result a crawl task delivers to the coordinator: either the
(files, errors) pair returned by process_ftp, or the message of a
session-level exception it raised. -/
inductive Outcome where
  | ok (files errors : List Str)
  | exn (msg : Str)
deriving DecidableEq, Repr

/-- The host-level failure diagnostic printed at line 201:
`'{}:{} {}'.format(addr, port, e)`. -/
def failDiag (h : Host) (e : Str) : Str :=
  h.addr ++ str (":") ++ h.port ++ str (" ") ++ e

/-- Split an embedded string on '/' (used to find the final path
component, as pathlib does for Path(f).name). -/
def splitSlash (f : Str) : List Str :=
  let r := f.foldl
    (fun (acc : List Str × Str) c =>
      if c = '/' then (acc.1 ++ [acc.2], []) else (acc.1, acc.2 ++ [c]))
    ([], [])
  r.1 ++ [r.2]

/-- The final path component of f — pathlib.Path(f).name: the last
nonempty '/'-separated segment. -/
def lastName (f : Str) : Str :=
  ((splitSlash f).filter (fun s => !s.isEmpty)).getLastD []

/-- pathlib.Path(f).suffix as used at line 210: with i the index of the
last dot of the final component, return name[i:] when 0 < i < len-1 and
the empty string otherwise. -/
def pySuffix (f : Str) : Str :=
  let name := lastName f
  let after := name.reverse.takeWhile (fun c => c != '.')
  if 0 < after.length ∧ after.length + 1 < name.length then '.' :: after.reverse
  else []

/-- The per-host extension histogram of line 210:
`collections.Counter([pathlib.Path(f).suffix for f in files])`,
modelled as the multiset of suffixes. -/
def histogram (files : List Str) : Multiset Str :=
  (files.map pySuffix : List Str)

/-- The coordinator state mutated by the completion-draining loop of
do_work (lines 197-218): the lines written to the output file, the
running total counter, and the host-level failure diagnostics printed at
line 201. -/
structure CoState where
  sink : List Str
  total : Multiset Str
  failures : List Str

/-- Handling of one completed task in do_work: an exception from the task
is printed as a failure diagnostic and contributes nothing else; a normal
completion appends its files to the output file and folds its histogram
into the total. -/
def drainOne (st : CoState) (item : Host × Outcome) : CoState :=
  match item.2 with
  | .exn e => { st with failures := st.failures ++ [failDiag item.1 e] }
  | .ok files _ => { st with sink := st.sink ++ files, total := st.total + histogram files }

/-- The completion-draining loop of do_work over the task results, in
completion order, starting from an empty sink / zero counter. -/
def do_work (items : List (Host × Outcome)) : CoState :=
  items.foldl drainOne ⟨[], 0, []⟩

/-- The files of a normally completed task (none for a failed one). -/
def okFilesOf : Host × Outcome → Option (List Str)
  | (_, .ok files _) => some files
  | (_, .exn _) => none

/-- The failure diagnostic of a failed task (none for a completed one). -/
def failDiagOf : Host × Outcome → Option Str
  | (h, .exn e) => some (failDiag h e)
  | (_, .ok _ _) => none

/-- A concrete host used by the concrete evaluations below. -/
def wHost : Host := ⟨str ("h"), str ("21")⟩

/-- A stop flag that is never set. -/
def zstop : Nat → Bool := fun _ => false

/-- A stop flag that is already set before the session starts. -/
def onestop : Nat → Bool := fun _ => true

/-- A concrete healthy server: the root holds one file and one
subdirectory, the subdirectory holds one file. -/
def okSrv : Server where
  session := .ok ()
  pwd := str ("/")
  content := fun p =>
    if p = str ("/") then
      .ok ([str ("sub"), str ("a.txt"), str (".")], [str ("drwx sub"), str ("-rw- a.txt")])
    else if p = str ("/sub/") then
      .ok ([str ("b.txt")], [str ("-rw- b.txt")])
    else
      .ok ([], [])

/-- A concrete server that denies every directory operation. -/
def permSrv : Server where
  session := .ok ()
  pwd := str ("/")
  content := fun _ => .error (.perm (str ("550 denied")))

/-- A concrete server whose connect/login fails. -/
def badSrv : Server where
  session := .error (str ("connection refused"))
  pwd := str ("/")
  content := fun _ => .ok ([], [])

/-- A concrete server that reports a non-root working directory while
still serving the root path. -/
def drvSrv : Server where
  session := .ok ()
  pwd := str ("/pub")
  content := fun _ => .ok ([], [])

/-- A concrete server whose root listing delivers one blank entry name
and one blank raw line: nlst and retrlines can both deliver empty
strings, and the empty name survives the dot filter of line 70. -/
def blankSrv : Server where
  session := .ok ()
  pwd := str ("/")
  content := fun _ => .ok ([[]], [[]])

theorem classifyLine_dir_iff (l : Str) (hne : l ≠ []) :
    classifyLine l = .ok .dir ↔ (l.head? = some 'd' ∨ dirMarker <:+: l) := by
  unfold classifyLine
  rw [if_neg hne]
  split_ifs with h1 h2 <;> simp_all

theorem classifyLine_file_iff (l : Str) (hne : l ≠ []) :
    classifyLine l = .ok .file ↔ ¬ (l.head? = some 'd' ∨ dirMarker <:+: l) := by
  unfold classifyLine
  rw [if_neg hne]
  split_ifs with h1 h2 <;> simp_all

theorem classifyLine_ne_unrecognized (l : Str) : classifyLine l ≠ .ok .unrecognized := by
  unfold classifyLine
  split_ifs with h0 h1 h2 <;> simp_all

theorem classifyLine_nil : classifyLine [] = .error PyExn.indexError := by
  rfl

theorem find?_structure {α : Type} {p : α → Bool} :
    ∀ {xs : List α} {a : α}, xs.find? p = some a →
      ∃ pre post, xs = pre ++ a :: post ∧ (∀ x ∈ pre, p x = false) ∧ p a = true := by
  intro xs
  induction xs with
  | nil => intro a h; simp at h
  | cons x xs ih =>
    intro a h
    by_cases hx : p x = true
    · rw [List.find?_cons_of_pos _ hx] at h
      cases h
      exact ⟨[], xs, rfl, by simp, hx⟩
    · rw [List.find?_cons_of_neg _ (by simpa using hx)] at h
      obtain ⟨pre, post, rfl, hpre, hpa⟩ := ih h
      refine ⟨x :: pre, post, rfl, ?_, hpa⟩
      intro y hy
      rcases List.mem_cons.mp hy with rfl | hy
      · simpa using hx
      · exact hpre y hy

theorem erase_of_first_match {p : Str → Bool} {pool pre post : List Str} {l : Str}
    (hsplit : pool = pre ++ l :: post) (hpre : ∀ x ∈ pre, p x = false) (hl : p l = true) :
    pool.erase l = pre ++ post := by
  subst hsplit
  have hnot : l ∉ pre := fun hmem => by simp [hpre l hmem] at hl
  rw [List.erase_append_right _ hnot, List.erase_cons_head]

theorem classifyName_matched (path : Str) (acc : CAcc) (name l : Str) (hne : l ≠ [])
    (hfind : acc.pool.find? (fun x => endsW x name) = some l) :
    ((l.head? = some 'd' ∨ dirMarker <:+: l) →
      classifyName path acc name
        = .ok ⟨acc.dirs ++ [path ++ name ++ str ("/")], acc.files, acc.pool.erase l⟩)
    ∧ (¬ (l.head? = some 'd' ∨ dirMarker <:+: l) →
      classifyName path acc name
        = .ok ⟨acc.dirs, acc.files ++ [path ++ name], acc.pool.erase l⟩) := by
  constructor
  · intro hd
    simp only [classifyName, hfind, (classifyLine_dir_iff l hne).mpr hd]
  · intro hd
    simp only [classifyName, hfind, (classifyLine_file_iff l hne).mpr hd]

theorem classifyName_empty_match (path : Str) (acc : CAcc) (name : Str)
    (hfind : acc.pool.find? (fun x => endsW x name) = some []) :
    classifyName path acc name = .error PyExn.indexError := by
  simp [classifyName, hfind, classifyLine]

theorem classifyName_err (path : Str) (acc : CAcc) (name : Str) (e : PyExn)
    (h : classifyName path acc name = .error e) : e = PyExn.indexError := by
  cases hfind : acc.pool.find? (fun x => endsW x name) with
  | none =>
    have hok : classifyName path acc name = .ok acc := by simp only [classifyName, hfind]
    exact absurd (hok.symm.trans h) (by simp)
  | some l =>
    cases l with
    | nil =>
      have := (classifyName_empty_match path acc name hfind).symm.trans h
      simpa using this.symm
    | cons c t =>
      have hne : (c :: t) ≠ ([] : Str) := by simp
      by_cases hd : (c :: t : Str).head? = some 'd' ∨ dirMarker <:+: (c :: t)
      · exact absurd (((classifyName_matched path acc name _ hne hfind).1 hd).symm.trans h)
          (by simp)
      · exact absurd (((classifyName_matched path acc name _ hne hfind).2 hd).symm.trans h)
          (by simp)

theorem classifyFold_err (path : Str) :
    ∀ (names : List Str) (acc : CAcc) (e : PyExn),
      List.foldlM (classifyName path) acc names = .error e → e = PyExn.indexError := by
  intro names
  induction names with
  | nil =>
    intro acc e h
    simp [List.foldlM, pure, Except.pure] at h
  | cons n ns ih =>
    intro acc e h
    rw [List.foldlM_cons] at h
    cases hcn : classifyName path acc n with
    | error e' =>
      rw [hcn] at h
      simp only [bind, Except.bind] at h
      have hee : e' = e := by simpa using h
      exact hee ▸ classifyName_err path acc n e' hcn
    | ok acc1 =>
      rw [hcn] at h
      simp only [bind, Except.bind] at h
      exact ih acc1 e h

theorem classifyAll_err (path : Str) (names pool : List Str) (e : PyExn)
    (h : classifyAll path names pool = .error e) : e = PyExn.indexError := by
  revert h
  unfold classifyAll
  cases hfold : List.foldlM (classifyName path) (⟨[], [], pool⟩ : CAcc) names with
  | error e' =>
    intro h
    have hee : e' = e := by simpa using h
    exact hee ▸ classifyFold_err path names ⟨[], [], pool⟩ e' hfold
  | ok acc =>
    intro h
    simp at h

theorem classifyName_shapes (path : Str) (acc acc' : CAcc) (name : Str)
    (h : classifyName path acc name = .ok acc') :
    (∀ d ∈ acc'.dirs, d ∈ acc.dirs ∨ ∃ s, d = path ++ s)
    ∧ (∀ f ∈ acc'.files, f ∈ acc.files ∨ ∃ s, f = path ++ s) := by
  cases hfind : acc.pool.find? (fun x => endsW x name) with
  | none =>
    have heq : classifyName path acc name = .ok acc := by
      simp only [classifyName, hfind]
    have hx : acc = acc' := by
      have := heq.symm.trans h
      simpa using this
    subst hx
    exact ⟨fun d hd => Or.inl hd, fun f hf => Or.inl hf⟩
  | some l =>
    cases l with
    | nil =>
      exact absurd ((classifyName_empty_match path acc name hfind).symm.trans h) (by simp)
    | cons c t =>
      have hne : (c :: t) ≠ ([] : Str) := by simp
      by_cases hd : (c :: t : Str).head? = some 'd' ∨ dirMarker <:+: (c :: t)
      · have heq := (classifyName_matched path acc name _ hne hfind).1 hd
        have hx : (⟨acc.dirs ++ [path ++ name ++ str ("/")], acc.files,
            acc.pool.erase (c :: t)⟩ : CAcc) = acc' := by
          have := heq.symm.trans h
          simpa using this
        subst hx
        refine ⟨?_, fun f hf => Or.inl hf⟩
        intro d hdm
        rcases List.mem_append.mp hdm with hdm | hdm
        · exact Or.inl hdm
        · exact Or.inr ⟨name ++ str ("/"),
            by simpa [List.append_assoc] using List.mem_singleton.mp hdm⟩
      · have heq := (classifyName_matched path acc name _ hne hfind).2 hd
        have hx : (⟨acc.dirs, acc.files ++ [path ++ name],
            acc.pool.erase (c :: t)⟩ : CAcc) = acc' := by
          have := heq.symm.trans h
          simpa using this
        subst hx
        refine ⟨fun d hdm => Or.inl hdm, ?_⟩
        intro f hf
        rcases List.mem_append.mp hf with hf | hf
        · exact Or.inl hf
        · exact Or.inr ⟨name, List.mem_singleton.mp hf⟩

theorem classifyFold_shapes (path : Str) :
    ∀ (names : List Str) (acc acc' : CAcc),
      List.foldlM (classifyName path) acc names = .ok acc' →
      (∀ d ∈ acc'.dirs, d ∈ acc.dirs ∨ ∃ s, d = path ++ s)
      ∧ (∀ f ∈ acc'.files, f ∈ acc.files ∨ ∃ s, f = path ++ s) := by
  intro names
  induction names with
  | nil =>
    intro acc acc' h
    cases h
    exact ⟨fun d hd => Or.inl hd, fun f hf => Or.inl hf⟩
  | cons n ns ih =>
    intro acc acc' h
    rw [List.foldlM_cons] at h
    cases hcn : classifyName path acc n with
    | error e =>
      rw [hcn] at h
      simp [bind, Except.bind] at h
    | ok acc1 =>
      rw [hcn] at h
      simp only [bind, Except.bind] at h
      obtain ⟨hd1, hf1⟩ := classifyName_shapes path acc acc1 n hcn
      obtain ⟨hd2, hf2⟩ := ih acc1 acc' h
      constructor
      · intro d hd
        rcases hd2 d hd with hmem | hs
        · exact hd1 d hmem
        · exact Or.inr hs
      · intro f hf
        rcases hf2 f hf with hmem | hs
        · exact hf1 f hmem
        · exact Or.inr hs

theorem get_content_shapes (srv : Server) (path : Str) (nd nf : List Str)
    (h : get_content srv path = .ok (nd, nf)) :
    (∀ d ∈ nd, ∃ s, d = path ++ s) ∧ (∀ f ∈ nf, ∃ s, f = path ++ s) := by
  revert h
  unfold get_content
  cases hc : srv.content path with
  | error e => intro h; cases h
  | ok pr =>
    obtain ⟨ns, ls⟩ := pr
    cases hfold : List.foldlM (classifyName path) (⟨[], [], ls⟩ : CAcc)
        (ns.filter (fun n => !(n == str (".") || n == str ("..")))) with
    | error e =>
      simp only [classifyAll, hfold]
      intro h
      cases h
    | ok acc =>
      simp only [classifyAll, hfold]
      intro h
      cases h
      obtain ⟨hd, hf⟩ := classifyFold_shapes path _ _ _ hfold
      constructor
      · intro d hdm
        rcases hd d hdm with hmem | hs
        · simp at hmem
        · exact hs
      · intro f hfm
        rcases hf f hfm with hmem | hs
        · simp at hmem
        · exact hs

theorem walkLoop_nil (srv : Server) (h : Host) (tmpl : Template) (stop : Nat → Bool)
    (fuel k : Nat) (files errors : List Str) :
    walkLoop srv h tmpl stop (fuel + 1) k [] files errors = some (.ok (files, errors)) := by
  simp [walkLoop]

theorem walkLoop_step_stop (srv : Server) (h : Host) (tmpl : Template) (stop : Nat → Bool)
    (fuel k : Nat) (path : Str) (rest files errors : List Str) (hstop : stop k = true) :
    walkLoop srv h tmpl stop (fuel + 1) k (path :: rest) files errors
      = some (.ok (files, errors ++ [str ("Stoped")])) := by
  simp [walkLoop, hstop]

theorem walkLoop_step_perm (srv : Server) (h : Host) (tmpl : Template) (stop : Nat → Bool)
    (fuel k : Nat) (path : Str) (rest files errors : List Str) (e : Str)
    (hstop : stop k = false) (hc : get_content srv path = .error (.perm e)) :
    walkLoop srv h tmpl stop (fuel + 1) k (path :: rest) files errors
      = walkLoop srv h tmpl stop fuel (k + 1) rest files (errors ++ [permDiag h path e]) := by
  simp [walkLoop, hstop, hc]

theorem walkLoop_step_fatal (srv : Server) (h : Host) (tmpl : Template) (stop : Nat → Bool)
    (fuel k : Nat) (path : Str) (rest files errors : List Str) (e : Str)
    (hstop : stop k = false) (hc : get_content srv path = .error (.fatal e)) :
    walkLoop srv h tmpl stop (fuel + 1) k (path :: rest) files errors
      = some (.error e) := by
  simp [walkLoop, hstop, hc]

theorem walkLoop_step_ok (srv : Server) (h : Host) (tmpl : Template) (stop : Nat → Bool)
    (fuel k : Nat) (path : Str) (rest files errors : List Str) (nd nf : List Str)
    (hstop : stop k = false) (hc : get_content srv path = .ok (nd, nf)) :
    walkLoop srv h tmpl stop (fuel + 1) k (path :: rest) files errors
      = walkLoop srv h tmpl stop fuel (k + 1) (nd ++ rest)
          (files ++ nf.map (formatRef tmpl h)) errors := by
  simp [walkLoop, hstop, hc]

theorem walkLoop_files_shape (srv : Server) (h : Host) (tmpl : Template) (stop : Nat → Bool) :
    ∀ (fuel k : Nat) (dirs files errors fs es : List Str),
      (tmpl = Template.rooted → ∀ p ∈ dirs, ∃ t, p = '/' :: t) →
      (∀ f ∈ files, ∃ rest, f = refHead h ++ rest) →
      walkLoop srv h tmpl stop fuel k dirs files errors = some (.ok (fs, es)) →
      ∀ f ∈ fs, ∃ rest, f = refHead h ++ rest := by
  intro fuel
  induction fuel with
  | zero =>
    intro k dirs files errors fs es _ _ hrun
    simp [walkLoop] at hrun
  | succ n ih =>
    intro k dirs files errors fs es hdirs hfiles hrun
    cases dirs with
    | nil =>
      rw [walkLoop_nil] at hrun
      obtain ⟨rfl, rfl⟩ : files = fs ∧ errors = es := by simpa using hrun
      exact hfiles
    | cons path rest =>
      by_cases hstop : stop k = true
      · rw [walkLoop_step_stop srv h tmpl stop n k path rest files errors hstop] at hrun
        obtain ⟨rfl, rfl⟩ : files = fs ∧ errors ++ [str ("Stoped")] = es := by simpa using hrun
        exact hfiles
      · have hstop' : stop k = false := by simpa using hstop
        cases hc : get_content srv path with
        | error ge =>
          cases ge with
          | perm e =>
            rw [walkLoop_step_perm srv h tmpl stop n k path rest files errors e hstop' hc] at hrun
            refine ih (k + 1) rest files (errors ++ [permDiag h path e]) fs es ?_ hfiles hrun
            intro hr p hp
            exact hdirs hr p (List.mem_cons_of_mem path hp)
          | fatal e =>
            rw [walkLoop_step_fatal srv h tmpl stop n k path rest files errors e hstop' hc] at hrun
            simp at hrun
        | ok pr =>
          obtain ⟨nd, nf⟩ := pr
          rw [walkLoop_step_ok srv h tmpl stop n k path rest files errors nd nf hstop' hc] at hrun
          obtain ⟨hshd, hshf⟩ := get_content_shapes srv path nd nf hc
          refine ih (k + 1) (nd ++ rest) (files ++ nf.map (formatRef tmpl h)) errors fs es ?_ ?_ hrun
          · intro hr p hp
            rcases List.mem_append.mp hp with hp | hp
            · obtain ⟨s, rfl⟩ := hshd p hp
              obtain ⟨t, hpath⟩ := hdirs hr path (List.mem_cons_self path rest)
              exact ⟨t ++ s, by rw [hpath, List.cons_append]⟩
            · exact hdirs hr p (List.mem_cons_of_mem path hp)
          · intro f hf
            rcases List.mem_append.mp hf with hf | hf
            · exact hfiles f hf
            · obtain ⟨g, hg, rfl⟩ := List.mem_map.mp hf
              obtain ⟨s, rfl⟩ := hshf g hg
              cases tmpl with
              | rooted =>
                obtain ⟨t, hpath⟩ := hdirs rfl path (List.mem_cons_self path rest)
                refine ⟨t ++ s, ?_⟩
                rw [formatRef, refHead, hpath]
                simp [str, List.append_assoc]
              | relative =>
                refine ⟨path ++ s, ?_⟩
                rw [formatRef, refHead]

/-- Claim C1 counterexample: the empty line, matched by the empty entry
name, satisfies neither a leading 'd' nor the '<DIR>' marker, yet it is
not classified as a File: evaluating line[0] raises IndexError before the
conditions decide anything — refuting the claim for that matched line. -/
theorem classification_rule_order_C1_counterexample :
    ¬ ((([] : Str).head? = some 'd') ∨ dirMarker <:+: ([] : Str))
    ∧ classifyName (str ("/")) ⟨[], [], [[]]⟩ [] = .error PyExn.indexError :=
  ⟨by decide, by rfl⟩

/-- Claim C1 (amended): for every non-empty listing line matched to an
entry name, the two rules are checked in order: a leading 'd' or a
'<DIR>' marker classifies the entry as a directory with new path
current+name+'/'; otherwise (the first condition failing, which makes the
second condition hold) the entry is a file with new path current+name —
so a non-empty line lacking a leading 'd'/'-' and the marker is
classified as a file, never as unrecognized.  An empty matched line
(matchable only by the empty entry name) instead raises IndexError at
line[0]. -/
theorem classification_rule_order_C1 (path : Str) (acc : CAcc) (name l : Str) (hne : l ≠ [])
    (hfind : acc.pool.find? (fun x => endsW x name) = some l) :
    ((l.head? = some 'd' ∨ dirMarker <:+: l) →
      classifyName path acc name
        = .ok ⟨acc.dirs ++ [path ++ name ++ str ("/")], acc.files, acc.pool.erase l⟩)
    ∧ (¬ (l.head? = some 'd' ∨ dirMarker <:+: l) →
      classifyName path acc name
        = .ok ⟨acc.dirs, acc.files ++ [path ++ name], acc.pool.erase l⟩) :=
  classifyName_matched path acc name l hne hfind

/-- Witness for C1: a Unix-style directory line and a line with neither a
recognizable leading character nor the marker, classified concretely. -/
theorem classification_rule_order_C1_witness :
    classifyName (str ("/")) ⟨[], [], [str ("drwx sub")]⟩ (str ("sub"))
      = .ok ⟨[str ("/sub/")], [], []⟩
    ∧ classifyName (str ("/")) ⟨[], [], [str ("x a.txt")]⟩ (str ("a.txt"))
      = .ok ⟨[], [str ("/a.txt")], []⟩ :=
  ⟨(classification_rule_order_C1 (str ("/")) ⟨[], [], [str ("drwx sub")]⟩ (str ("sub"))
      (str ("drwx sub")) (by decide) rfl).1 (Or.inl rfl),
   (classification_rule_order_C1 (str ("/")) ⟨[], [], [str ("x a.txt")]⟩ (str ("a.txt"))
      (str ("x a.txt")) (by decide) rfl).2 (by decide)⟩

/-- Claim C3 counterexample: a name (here the only name) with no matching
raw line produces no Unsupported-Format error — the classifier returns
normally with no classification for that name, refuting the claim that it
signals an error. -/
theorem missing_line_silent_C3_counterexample :
    classifyAll (str ("/")) [str ("video.mp4")] [] = .ok ([], []) := by rfl

/-- Claim C3 (amended): an entry name with no matching not-yet-consumed
line is silently skipped — the matching loop leaves the accumulator
untouched and signals no error for that name. -/
theorem missing_line_skipped_C3 (path : Str) (acc : CAcc) (name : Str)
    (hfind : acc.pool.find? (fun x => endsW x name) = none) :
    classifyName path acc name = .ok acc := by
  simp only [classifyName, hfind]

/-- Witness for the amended C3. -/
theorem missing_line_skipped_C3_witness :
    classifyName (str ("/")) ⟨[], [], []⟩ (str ("video.mp4")) = .ok ⟨[], [], []⟩ :=
  missing_line_skipped_C3 (str ("/")) ⟨[], [], []⟩ (str ("video.mp4")) rfl

/-- Claim C9 counterexample: with a pool of two blank lines, the empty
entry name matches the first blank line, but the program raises
IndexError at line[0] before lines.pop runs — no ok result exists and
nothing is consumed, refuting the claim that every matched name consumes
its matched line. -/
theorem one_to_one_consumption_C9_counterexample :
    classifyName (str ("x")) ⟨[], [], [[], []]⟩ [] = .error PyExn.indexError := by
  rfl

/-- Claim C9 (amended): processing one entry name either consumes nothing
(no line of the pool ends with the name), or its first matching line
occurrence is the empty line (matchable only by the empty name) and the
loop raises IndexError before consuming anything, or — the first matching
occurrence being non-empty — it consumes exactly that occurrence: the
resulting pool is the old pool with precisely that occurrence removed
(`pre ++ post`), so the matched occurrence can never serve a second name,
even when the pool contains duplicate equal lines (other equal
occurrences stay, each available to at most one further name). -/
theorem one_to_one_consumption_C9 :
    ∀ (path : Str) (acc : CAcc) (name : Str),
      (acc.pool.find? (fun x => endsW x name) = none ∧ classifyName path acc name = .ok acc)
      ∨ (∃ pre l post, acc.pool = pre ++ l :: post ∧ (∀ x ∈ pre, endsW x name = false)
          ∧ endsW l name = true
          ∧ ((l = [] ∧ classifyName path acc name = .error PyExn.indexError)
             ∨ (l ≠ [] ∧ ∃ acc', classifyName path acc name = .ok acc'
                  ∧ acc'.pool = pre ++ post))) := by
  intro path acc name
  cases hfind : acc.pool.find? (fun x => endsW x name) with
  | none => exact Or.inl ⟨rfl, by simp only [classifyName, hfind]⟩
  | some l =>
    obtain ⟨pre, post, hsplit, hpre, hl⟩ := find?_structure hfind
    refine Or.inr ⟨pre, l, post, hsplit, hpre, hl, ?_⟩
    cases l with
    | nil => exact Or.inl ⟨rfl, classifyName_empty_match path acc name hfind⟩
    | cons c t =>
      have hne : (c :: t) ≠ ([] : Str) := by simp
      have herase : acc.pool.erase (c :: t) = pre ++ post :=
        erase_of_first_match hsplit hpre hl
      refine Or.inr ⟨hne, ?_⟩
      by_cases hd : (c :: t : Str).head? = some 'd' ∨ dirMarker <:+: (c :: t)
      · exact ⟨_, (classifyName_matched path acc name _ hne hfind).1 hd, herase⟩
      · exact ⟨_, (classifyName_matched path acc name _ hne hfind).2 hd, herase⟩

/-- Claim C10 counterexample: a reachable server response — one blank
entry name and one blank raw line, the blank name surviving the dot
filter — makes the classification of a matched line raise: get_content
ends in the fatal IndexError message, refuting the claim that a matched
line never raises. -/
theorem branch_exhaustive_C10_counterexample :
    get_content blankSrv (str ("/"))
      = .error (.fatal (str ("string index out of range"))) := by
  rfl

/-- Claim C10 (amended): the two branch conditions are exhaustive for
every non-empty matched line — a non-empty line whose first character is
not 'd' and which does not contain '<DIR>' satisfies the file condition —
so the branch raising FtpStringException is unreachable and
classification never signals the Unsupported-Format error; the one raise
a matched line can produce is the IndexError of an empty matched line,
which only the empty entry name can match. -/
theorem branch_exhaustive_C10 :
    (∀ l : Str, l ≠ [] → l.head? ≠ some 'd' → ¬ (dirMarker <:+: l) →
      classifyLine l = .ok .file)
    ∧ (∀ (path : Str) (names pool : List Str) (l : Str),
        classifyAll path names pool ≠ .error (.ftpString l)) := by
  constructor
  · intro l hne h1 h2
    exact (classifyLine_file_iff l hne).mpr (by tauto)
  · intro path names pool l hcontra
    have := classifyAll_err path names pool (.ftpString l) hcontra
    cases this

/-- Witness for C10: a non-empty line with an unrecognizable first
character and no marker is classified as a file, and a whole
classification run on such a line does not raise the Unsupported-Format
error. -/
theorem branch_exhaustive_C10_witness :
    classifyLine (str ("?r-xr-xr-x data")) = .ok EntryClass.file
    ∧ classifyAll (str ("/")) [str ("data")] [str ("?r-xr-xr-x data")]
        ≠ .error (.ftpString (str ("?r-xr-xr-x data"))) :=
  ⟨branch_exhaustive_C10.1 (str ("?r-xr-xr-x data")) (by decide) (by decide) (by decide),
   branch_exhaustive_C10.2 (str ("/")) [str ("data")] [str ("?r-xr-xr-x data")]
     (str ("?r-xr-xr-x data"))⟩

/-- Claim C2 counterexample: a server that serves the root path normally
(its directory content request for '/' succeeds, so no permission-denied
rejection is involved anywhere) but reports a working directory other
than '/'.  The walker nevertheless chooses the empty-string fallback and
completes the whole session without a single error — refuting the claim
that the fallback is taken if and only if an attempt to establish the
working directory at '/' is rejected with a permission-denied error.  The
code never attempts such an establishment: it only compares the result of
pwd() with '/'. -/
theorem start_convention_C2_counterexample :
    (drvSrv.content (str ("/"))).isOk = true
    ∧ startConfig drvSrv.pwd = ([[]], Template.relative)
    ∧ process_ftp drvSrv wHost zstop 2 = some (.ok ([], [])) := by
  exact ⟨rfl, by rfl, by rfl⟩

/-- Claim C2 (amended): the starting path and template are chosen purely
by comparing the result of pwd() with '/': a session whose server reports
'/' starts the loop on the frontier ['/'] with the rooted template, and
any other report makes it start on [''] with the slash-inserting
template; no cwd-to-root attempt and no permission-error handling take
part in the choice. -/
theorem start_convention_C2 (srv : Server) (h : Host) (stop : Nat → Bool) (fuel : Nat)
    (h0 : stop 0 = false) (hs : srv.session = .ok ()) :
    (srv.pwd = str ("/") →
      process_ftp srv h stop fuel = walkLoop srv h Template.rooted stop fuel 1 [str ("/")] [] [])
    ∧ (srv.pwd ≠ str ("/") →
      process_ftp srv h stop fuel = walkLoop srv h Template.relative stop fuel 1 [[]] [] []) := by
  constructor
  · intro hp
    simp [process_ftp, h0, hs, startConfig, hp]
  · intro hp
    simp [process_ftp, h0, hs, startConfig, hp]

/-- Witness for the amended C2: one server reporting '/', one reporting
'/pub'. -/
theorem start_convention_C2_witness :
    process_ftp okSrv wHost zstop 4
      = walkLoop okSrv wHost Template.rooted zstop 4 1 [str ("/")] [] []
    ∧ process_ftp drvSrv wHost zstop 2
      = walkLoop drvSrv wHost Template.relative zstop 2 1 [[]] [] [] :=
  ⟨(start_convention_C2 okSrv wHost zstop 4 rfl rfl).1 rfl,
   (start_convention_C2 drvSrv wHost zstop 2 rfl rfl).2 (by decide)⟩

/-- Claim C4: in one loop iteration on a non-empty frontier (stop flag
unset), the front path is removed exactly once whether its expansion
fails with a permission error or succeeds, and on success the newly
discovered subdirectories are inserted at the front, ahead of everything
previously queued — the continuation state never retains the processed
front occurrence. -/
theorem frontier_discipline_C4 (srv : Server) (h : Host) (tmpl : Template) (stop : Nat → Bool)
    (fuel k : Nat) (path : Str) (rest files errors : List Str) (hstop : stop k = false) :
    (∀ e, get_content srv path = .error (.perm e) →
      walkLoop srv h tmpl stop (fuel + 1) k (path :: rest) files errors
        = walkLoop srv h tmpl stop fuel (k + 1) rest files (errors ++ [permDiag h path e]))
    ∧ (∀ nd nf, get_content srv path = .ok (nd, nf) →
      walkLoop srv h tmpl stop (fuel + 1) k (path :: rest) files errors
        = walkLoop srv h tmpl stop fuel (k + 1) (nd ++ rest)
            (files ++ nf.map (formatRef tmpl h)) errors) :=
  ⟨fun e hc => walkLoop_step_perm srv h tmpl stop fuel k path rest files errors e hstop hc,
   fun nd nf hc => walkLoop_step_ok srv h tmpl stop fuel k path rest files errors nd nf hstop hc⟩

/-- Witness for C4: one concrete failing expansion and one concrete
succeeding expansion. -/
theorem frontier_discipline_C4_witness :
    walkLoop permSrv wHost Template.rooted zstop 2 1 [str ("/")] [] []
      = walkLoop permSrv wHost Template.rooted zstop 1 2 [] []
          [str ("h:21 Path: / Error: 550 denied")]
    ∧ walkLoop okSrv wHost Template.rooted zstop 3 1 [str ("/")] [] []
      = walkLoop okSrv wHost Template.rooted zstop 2 2 [str ("/sub/")]
          [str ("ftp://h:21/a.txt")] [] :=
  ⟨(frontier_discipline_C4 permSrv wHost Template.rooted zstop 1 1 (str ("/")) [] [] [] rfl).1
      (str ("550 denied")) rfl,
   (frontier_discipline_C4 okSrv wHost Template.rooted zstop 2 1 (str ("/")) [] [] [] rfl).2
      [str ("/sub/")] [str ("/a.txt")] rfl⟩

/-- Claim C5: on a permission-class error while changing to or listing
the front directory, the walker pops that one path, appends exactly one
diagnostic naming the host (address and port), the path and the
underlying error, leaves the accumulated file list unchanged, and
continues the loop on the remaining frontier — the session is not
terminated. -/
theorem perm_skip_C5 (srv : Server) (h : Host) (tmpl : Template) (stop : Nat → Bool)
    (fuel k : Nat) (path : Str) (rest files errors : List Str) (e : Str)
    (hstop : stop k = false) (hc : get_content srv path = .error (.perm e)) :
    walkLoop srv h tmpl stop (fuel + 1) k (path :: rest) files errors
      = walkLoop srv h tmpl stop fuel (k + 1) rest files
          (errors ++ [h.addr ++ str (":") ++ h.port ++ str (" Path: ") ++ path
            ++ str (" Error: ") ++ e]) :=
  walkLoop_step_perm srv h tmpl stop fuel k path rest files errors e hstop hc

/-- Witness for C5: a denied root with an already non-empty file list,
showing the file list carried through unchanged and the single appended
diagnostic. -/
theorem perm_skip_C5_witness :
    walkLoop permSrv wHost Template.rooted zstop 2 1 [str ("/")]
        [str ("ftp://h:21/kept.txt")] []
      = walkLoop permSrv wHost Template.rooted zstop 1 2 []
          [str ("ftp://h:21/kept.txt")] [str ("h:21 Path: / Error: 550 denied")] :=
  perm_skip_C5 permSrv wHost Template.rooted zstop 1 1 (str ("/")) []
    [str ("ftp://h:21/kept.txt")] [] (str ("550 denied")) rfl rfl

/-- Claim C6: a session that reads a set flag before connecting returns
immediately — for every server, even one whose connect would fail — with
no files and the stopped diagnostic; and a session that reads a set flag
at the top of its loop appends the stopped marker (the literal text the
code appends is 'Stoped') and terminates at once, keeping all files
collected so far. -/
theorem cancellation_checkpoint_C6 :
    (∀ (srv : Server) (h : Host) (stop : Nat → Bool) (fuel : Nat), stop 0 = true →
      process_ftp srv h stop fuel = some (.ok ([], [str ("Stoped")])))
    ∧ (∀ (srv : Server) (h : Host) (tmpl : Template) (stop : Nat → Bool) (fuel k : Nat)
        (path : Str) (rest files errors : List Str), stop k = true →
      walkLoop srv h tmpl stop (fuel + 1) k (path :: rest) files errors
        = some (.ok (files, errors ++ [str ("Stoped")]))) := by
  constructor
  · intro srv h stop fuel h0
    simp [process_ftp, h0]
  · intro srv h tmpl stop fuel k path rest files errors hk
    exact walkLoop_step_stop srv h tmpl stop fuel k path rest files errors hk

/-- Witness for C6: a not-yet-started session on a server whose connect
would fail still reports stopped without touching the connection, and a
mid-loop session keeps its collected file. -/
theorem cancellation_checkpoint_C6_witness :
    process_ftp badSrv wHost onestop 5 = some (.ok ([], [str ("Stoped")]))
    ∧ walkLoop permSrv wHost Template.rooted onestop 3 1 [str ("/")]
        [str ("ftp://h:21/kept.txt")] []
      = some (.ok ([str ("ftp://h:21/kept.txt")], [str ("Stoped")])) :=
  ⟨cancellation_checkpoint_C6.1 badSrv wHost onestop 5 rfl,
   cancellation_checkpoint_C6.2 permSrv wHost Template.rooted onestop 2 1 (str ("/")) []
     [str ("ftp://h:21/kept.txt")] [] rfl⟩

theorem drain_fold :
    ∀ (items : List (Host × Outcome)) (st : CoState),
      (items.foldl drainOne st).total
          = st.total + ((items.filterMap okFilesOf).map histogram).sum
      ∧ (items.foldl drainOne st).sink = st.sink ++ (items.filterMap okFilesOf).flatten
      ∧ (items.foldl drainOne st).failures = st.failures ++ items.filterMap failDiagOf := by
  intro items
  induction items with
  | nil => intro st; simp
  | cons it its ih =>
    intro st
    obtain ⟨hst, outc⟩ := it
    obtain ⟨h1, h2, h3⟩ := ih (drainOne st (hst, outc))
    cases outc with
    | ok files errs =>
      refine ⟨?_, ?_, ?_⟩
      · rw [List.foldl_cons, h1]
        simp [drainOne, okFilesOf, add_assoc]
      · rw [List.foldl_cons, h2]
        simp [drainOne, okFilesOf]
      · rw [List.foldl_cons, h3]
        simp [drainOne, failDiagOf]
    | exn e =>
      refine ⟨?_, ?_, ?_⟩
      · rw [List.foldl_cons, h1]
        simp [drainOne, okFilesOf]
      · rw [List.foldl_cons, h2]
        simp [drainOne, okFilesOf]
      · rw [List.foldl_cons, h3]
        simp [drainOne, failDiagOf]

/-- Claim C7: draining the task completions, a failed task contributes
exactly one host-level failure diagnostic and nothing to the sink or the
aggregate histogram, while every completed task contributes its files and
its extension histogram; the drain covers every task regardless of
earlier failures.  In particular, over any batch the aggregate histogram
is exactly the sum of the histograms of the successfully completed hosts
— with one failing host among N, only the other N-1 are counted. -/
theorem coordinator_isolation_C7 :
    ∀ items : List (Host × Outcome),
      (do_work items).total = ((items.filterMap okFilesOf).map histogram).sum
      ∧ (do_work items).sink = (items.filterMap okFilesOf).flatten
      ∧ (do_work items).failures = items.filterMap failDiagOf := by
  intro items
  obtain ⟨h1, h2, h3⟩ := drain_fold items ⟨[], 0, []⟩
  exact ⟨by simpa using h1, by simpa using h2, by simpa using h3⟩

/-- Claim C8: every file reference a successfully returning walker
session produces starts with ftp://address:port followed by a path that
begins with '/': under the rooted convention the collected paths
themselves carry the leading slash, and under the empty-string fallback
the template inserts it. -/
theorem ref_format_C8 (srv : Server) (h : Host) (stop : Nat → Bool) (fuel : Nat)
    (files errors : List Str)
    (hrun : process_ftp srv h stop fuel = some (.ok (files, errors))) :
    ∀ f ∈ files, ∃ rest, f = refHead h ++ rest := by
  revert hrun
  unfold process_ftp
  by_cases h0 : stop 0 = true
  · rw [if_pos h0]
    intro hrun
    obtain ⟨hfe, _⟩ : ([] : List Str) = files ∧ [str ("Stoped")] = errors := by simpa using hrun
    intro f hf
    rw [← hfe] at hf
    simp at hf
  · rw [if_neg h0]
    cases hs : srv.session with
    | error e =>
      intro hrun
      simp at hrun
    | ok u =>
      intro hrun
      refine walkLoop_files_shape srv h (startConfig srv.pwd).2 stop fuel 1
        (startConfig srv.pwd).1 [] [] files errors ?_ ?_ hrun
      · intro hr p hp
        unfold startConfig at hr hp
        by_cases hpwd : srv.pwd ≠ str ("/")
        · rw [if_pos hpwd] at hr
          exact absurd hr (by decide)
        · rw [if_neg hpwd] at hp
          simp only [List.mem_singleton] at hp
          exact ⟨[], by simpa using hp⟩
      · intro f hf
        simp at hf

/-- Witness for C8: the file reference collected from the concrete
healthy server decomposes after the slash that follows the port. -/
theorem ref_format_C8_witness :
    ∃ rest, str ("ftp://h:21/a.txt") = refHead wHost ++ rest :=
  ref_format_C8 okSrv wHost zstop 4
    [str ("ftp://h:21/a.txt"), str ("ftp://h:21/sub/b.txt")] [] rfl
    (str ("ftp://h:21/a.txt")) (List.mem_cons_self _ _)
